import Mathlib

/-!
Verification of the coin and script-type path authorization engine
(`core/src/apps/bitcoin/keychain.py`).

The engine decides whether a signing or address operation may use a key
derived at a given BIP-32 derivation path, builds the per-coin set of
acceptable path schemas, and dispatches incoming requests either through
a pre-authorized keychain or through fresh schema construction and
scoped keychain acquisition.

External collaborators (the path-pattern matching primitive, the coin
metadata registry, the keychain acquisition service and the name set
`BITCOIN_NAMES`) are not part of the source under verification; they are
modelled from the specification at their interface boundary, and each
such definition is marked `Modelled from the spec:` in its doc comment.
-/

namespace BitcoinKeychain

/-- Hardened-derivation marker: a path segment is hardened when its high
bit (bit 31 of a 32-bit unsigned integer) is set. -/
def HARDENED : Nat := 2 ^ 31

/-- Whether a raw path segment carries the hardened marker. -/
def isHardenedSeg (seg : Nat) : Bool := decide (HARDENED ≤ seg)

/-- The numeric value of a path segment with the hardened marker stripped. -/
def segValue (seg : Nat) : Nat := seg % HARDENED

/-- Modelled from the spec: one element of a path-pattern template
(the template grammar of the external path-matcher primitive, consumed
as a black box by the source). A segment is a literal unsigned integer,
one of the named placeholders coin_type / account / change /
address_index, an inclusive numeric range, or an explicit value set;
each carries a hardened flag. -/
inductive SegPat where
  | literal (value : Nat) (hardened : Bool)
  | coin_type (hardened : Bool)
  | account (hardened : Bool)
  | change (hardened : Bool)
  | address_index (hardened : Bool)
  | numRange (lo hi : Nat) (hardened : Bool)
  | valueSet (values : List Nat) (hardened : Bool)
  deriving DecidableEq, Repr

/-- Modelled from the spec: the match test for one template segment
against one concrete path segment. The hardened flag must agree; a
literal must equal its value; the coin_type placeholder must equal the
reference coin type bound into the schema; account, change and
address_index accept any value; a range and a value set constrain the
numeric value. -/
def segMatch (reference_coin_type : Nat) : SegPat → Nat → Bool
  | SegPat.literal v h, seg => isHardenedSeg seg == h && segValue seg == v
  | SegPat.coin_type h, seg =>
      isHardenedSeg seg == h && segValue seg == reference_coin_type
  | SegPat.account h, seg => isHardenedSeg seg == h
  | SegPat.change h, seg => isHardenedSeg seg == h
  | SegPat.address_index h, seg => isHardenedSeg seg == h
  | SegPat.numRange lo hi h, seg =>
      isHardenedSeg seg == h && decide (lo ≤ segValue seg)
        && decide (segValue seg ≤ hi)
  | SegPat.valueSet vs h, seg => isHardenedSeg seg == h && vs.contains (segValue seg)

/-- A path schema: an immutable template together with the bound
reference coin type, as constructed by `PathSchema(pattern, slip44)` in
the source. -/
structure PathSchema where
  pattern : List SegPat
  reference_coin_type : Nat
  deriving DecidableEq, Repr

/-- Modelled from the spec: the match predicate of the external
path-pattern primitive. A concrete path satisfies a schema iff its
segment count equals the template segment count and every segment
satisfies the corresponding template element. -/
def PathSchema.matches (s : PathSchema) (path : List Nat) : Bool :=
  s.pattern.length == path.length
    && (List.zip s.pattern path).all fun pq => segMatch s.reference_coin_type pq.1 pq.2

/-- Modelled from the spec: the canonical BIP-44 pattern, imported by
the source from `apps.common.paths` (not part of src). Template
segments: 44 hardened, coin_type hardened, account hardened, change,
address_index. -/
def PATTERN_BIP44 : List SegPat :=
  [SegPat.literal 44 true, SegPat.coin_type true, SegPat.account true,
   SegPat.change false, SegPat.address_index false]

/-- Source template: 45 hardened, range 0-100, change, address_index. -/
def PATTERN_BIP45 : List SegPat :=
  [SegPat.literal 45 true, SegPat.numRange 0 100 false,
   SegPat.change false, SegPat.address_index false]

/-- Source template: 48 hardened, coin_type hardened, account hardened,
set 0,1,2 hardened, change, address_index. -/
def PATTERN_PURPOSE48 : List SegPat :=
  [SegPat.literal 48 true, SegPat.coin_type true, SegPat.account true,
   SegPat.valueSet [0, 1, 2] true, SegPat.change false, SegPat.address_index false]

/-- Source template: 49 hardened, coin_type hardened, account hardened,
change, address_index. -/
def PATTERN_BIP49 : List SegPat :=
  [SegPat.literal 49 true, SegPat.coin_type true, SegPat.account true,
   SegPat.change false, SegPat.address_index false]

/-- Source template: 84 hardened, coin_type hardened, account hardened,
change, address_index. -/
def PATTERN_BIP84 : List SegPat :=
  [SegPat.literal 84 true, SegPat.coin_type true, SegPat.account true,
   SegPat.change false, SegPat.address_index false]

/-- Source compatibility template: set 1,4 then address_index. -/
def PATTERN_GREENADDRESS_A : List SegPat :=
  [SegPat.valueSet [1, 4] false, SegPat.address_index false]

/-- Source compatibility template: 3 hardened, range 1-100 hardened,
set 1,4, address_index. -/
def PATTERN_GREENADDRESS_B : List SegPat :=
  [SegPat.literal 3 true, SegPat.numRange 1 100 true,
   SegPat.valueSet [1, 4] false, SegPat.address_index false]

/-- Source compatibility template: the single fixed segment 1195487518. -/
def PATTERN_GREENADDRESS_SIGN_A : List SegPat :=
  [SegPat.literal 1195487518 false]

/-- Source compatibility template: 1195487518, 6, address_index. -/
def PATTERN_GREENADDRESS_SIGN_B : List SegPat :=
  [SegPat.literal 1195487518 false, SegPat.literal 6 false,
   SegPat.address_index false]

/-- Source compatibility template: 49, coin_type, account, change,
address_index, all unhardened. -/
def PATTERN_CASA : List SegPat :=
  [SegPat.literal 49 false, SegPat.coin_type false, SegPat.account false,
   SegPat.change false, SegPat.address_index false]

/-- Modelled from the spec: `BITCOIN_NAMES`, imported by the source from
`.common` (not part of src): the set of coin names of the
Bitcoin-compatible legacy-wallet family. -/
def BITCOIN_NAMES : List String := ["Bitcoin", "Regtest", "Testnet"]

/-- Coin metadata, read-only, as consumed by the source from the
external registry `apps.common.coininfo`. -/
structure CoinInfo where
  coin_name : String
  slip44 : Nat
  curve_name : String
  segwit : Bool
  fork_id : Option Nat
  deriving DecidableEq, Repr

/-- The input script type enumeration of an incoming operation. -/
inductive InputScriptType where
  | SPENDADDRESS
  | SPENDMULTISIG
  | SPENDP2SHWITNESS
  | SPENDWITNESS
  deriving DecidableEq, Repr

/-- The fields of an incoming message relevant to the script-type
validator: the concrete derivation path, the optional declared script
type (absent defaults to SPENDADDRESS) and the multisig flag (derived
in the source via attribute probing, defaulting to false). -/
structure MsgWithAddressScriptType where
  address_n : List Nat
  script_type : Option InputScriptType
  multisig : Bool
  deriving DecidableEq, Repr

/-- Embedding of `validate_input_script_type` (keychain.py lines 47-86):
selects the templates relevant to the declared script type and multisig
flag, binds each with the coin slip44 value, and tests whether the
requested path matches any of them. -/
def validate_input_script_type (coin : CoinInfo) (msg : MsgWithAddressScriptType) :
    Bool :=
  let script_type := msg.script_type.getD InputScriptType.SPENDADDRESS
  let multisig := msg.multisig
  let patterns : List (List SegPat) :=
    if script_type = InputScriptType.SPENDADDRESS ∧ multisig = false then
      [PATTERN_BIP44]
        ++ (if coin.coin_name ∈ BITCOIN_NAMES then
              [PATTERN_GREENADDRESS_A, PATTERN_GREENADDRESS_B]
            else [])
    else if (script_type = InputScriptType.SPENDADDRESS
              ∨ script_type = InputScriptType.SPENDMULTISIG) ∧ multisig = true then
      [PATTERN_BIP45, PATTERN_PURPOSE48]
        ++ (if coin.coin_name ∈ BITCOIN_NAMES then
              [PATTERN_GREENADDRESS_A, PATTERN_GREENADDRESS_B]
            else [])
    else if coin.segwit = true ∧ script_type = InputScriptType.SPENDP2SHWITNESS then
      [PATTERN_BIP49]
        ++ (if multisig then [PATTERN_PURPOSE48] else [])
        ++ (if coin.coin_name ∈ BITCOIN_NAMES then
              [PATTERN_GREENADDRESS_A, PATTERN_GREENADDRESS_B, PATTERN_CASA]
            else [])
    else if coin.segwit = true ∧ script_type = InputScriptType.SPENDWITNESS then
      [PATTERN_BIP84]
        ++ (if multisig then [PATTERN_PURPOSE48] else [])
        ++ (if coin.coin_name ∈ BITCOIN_NAMES then
              [PATTERN_GREENADDRESS_A, PATTERN_GREENADDRESS_B]
            else [])
    else []
  patterns.any fun pattern => (PathSchema.mk pattern coin.slip44).matches msg.address_n

/-- The template list built by `get_schemas_for_coin` (keychain.py lines
91-111) before binding: the three basic patterns, the compatibility
patterns when the coin name is in `BITCOIN_NAMES`, and the segwit
patterns when the coin supports segwit. Factored out of the source local
variable `patterns` so theorems can speak about the collected templates. -/
def schema_patterns (coin : CoinInfo) : List (List SegPat) :=
  [PATTERN_BIP44, PATTERN_BIP45, PATTERN_PURPOSE48]
    ++ (if coin.coin_name ∈ BITCOIN_NAMES then
          [PATTERN_GREENADDRESS_A, PATTERN_GREENADDRESS_B,
           PATTERN_GREENADDRESS_SIGN_A, PATTERN_GREENADDRESS_SIGN_B,
           PATTERN_CASA]
        else [])
    ++ (if coin.segwit then [PATTERN_BIP49, PATTERN_BIP84] else [])

/-- Embedding of `get_schemas_for_coin` (keychain.py lines 89-121):
binds every collected template to the coin slip44 value, and, when the
coin has a fork id (strong replay protection), additionally binds every
collected template to reference coin type 0. -/
def get_schemas_for_coin (coin : CoinInfo) : List PathSchema :=
  let patterns := schema_patterns coin
  let schemas := patterns.map fun pattern => PathSchema.mk pattern coin.slip44
  schemas
    ++ (if coin.fork_id ≠ none then
          patterns.map fun pattern => PathSchema.mk pattern 0
        else [])

/-- The error type surfaced by this layer: `wire.DataError` with its
message, plus opaque failures of the external keychain acquisition
service (user cancellation, communication error) and of the business
handler, so that propagation can be stated for arbitrary failures. -/
inductive Err where
  | dataError (s : String)
  | actionCancelled
  | other (code : Nat)
  deriving DecidableEq, Repr

/-- Embedding of `get_coin_by_name` (keychain.py lines 124-131). The
external registry `coininfo.by_name` is taken as a parameter: `some`
models a successful lookup, `none` models the ValueError it raises for
an unknown name, which the source converts into
`wire.DataError("Unsupported coin type")`. A missing input name
defaults to "Bitcoin". -/
def get_coin_by_name (by_name : String → Option CoinInfo)
    (coin_name : Option String) : Except Err CoinInfo :=
  let name := coin_name.getD "Bitcoin"
  match by_name name with
  | some coin => Except.ok coin
  | none => Except.error (Err.dataError "Unsupported coin type")

/-- An opaque keychain capability object. -/
structure Keychain where
  id : Nat
  deriving DecidableEq, Repr

/-- The pre-negotiated authorization token: it carries an
already-acquired keychain. Only the keychain field is consumed by the
source under verification. -/
structure CoinJoinAuthorization where
  keychain : Keychain
  deriving DecidableEq, Repr

/-- An opaque wire context, threaded through unchanged. -/
structure Context where
  id : Nat
  deriving DecidableEq, Repr

/-- The fixed SLIP-21 namespace list passed to keychain acquisition
(keychain.py line 139). -/
def slip21_namespaces : List (List String) := [["SLIP-0019"]]

/-- Collaborator events recorded by the dispatcher embedding, so that
which external services were invoked, with which arguments and in which
order, is part of the observable behaviour: schema-set construction,
keychain acquisition, business-handler invocation, and the scoped
release performed on exit from the `with keychain` block. -/
inductive Ev where
  | evGetSchemas (coin : CoinInfo)
  | evAcquire (curve : String) (schemas : List PathSchema)
      (namespaces : List (List String))
  | evHandler (keychain : Keychain) (coin : CoinInfo)
      (authorization : Option CoinJoinAuthorization)
  | evRelease (keychain : Keychain)
  deriving DecidableEq, Repr

/-- Whether an event is a schema-set construction. -/
def Ev.isGetSchemas : Ev → Bool
  | Ev.evGetSchemas _ => true
  | _ => false

/-- Whether an event is a keychain acquisition. -/
def Ev.isAcquire : Ev → Bool
  | Ev.evAcquire _ _ _ => true
  | _ => false

/-- Whether an event is a business-handler invocation. -/
def Ev.isHandler : Ev → Bool
  | Ev.evHandler _ _ _ => true
  | _ => false

/-- The message shape consumed by the dispatcher: it exposes the coin
name (optional on the wire). -/
structure MsgWithCoinName where
  coin_name : Option String
  deriving DecidableEq, Repr

/-- Embedding of `get_keychain_for_coin` (keychain.py lines 134-141):
resolve the coin, build its schema set, and acquire a keychain scoped
to the coin curve, the schemas and the fixed SLIP-21 namespaces. The
acquisition service `get_keychain` is external and taken as the
parameter `acquire`; failure of either step propagates unwrapped. The
second component records the collaborator events. -/
def get_keychain_for_coin (by_name : String → Option CoinInfo)
    (acquire : String → List PathSchema → List (List String) → Except Err Keychain)
    (coin_name : Option String) :
    Except Err (Keychain × CoinInfo) × List Ev :=
  match get_coin_by_name by_name coin_name with
  | Except.error e => (Except.error e, [])
  | Except.ok coin =>
      let schemas := get_schemas_for_coin coin
      match acquire coin.curve_name schemas slip21_namespaces with
      | Except.error e =>
          (Except.error e,
           [Ev.evGetSchemas coin, Ev.evAcquire coin.curve_name schemas slip21_namespaces])
      | Except.ok keychain =>
          (Except.ok (keychain, coin),
           [Ev.evGetSchemas coin, Ev.evAcquire coin.curve_name schemas slip21_namespaces])

/-- Embedding of the composed handler produced by `with_keychain`
(keychain.py lines 144-159), applied to one request. A non-null
authorization reuses its keychain after resolving the coin from the
message coin name; otherwise a fresh keychain is acquired through
`get_keychain_for_coin` and the handler runs inside the scoped
`with keychain` block, whose exit (the release) runs whatever the
handler outcome is, cancellation and errors included: the handler
outcome is an arbitrary `Except Err` value supplied by the `func`
parameter. The second component records the collaborator events in
order. -/
def with_keychain {MsgOut : Type}
    (by_name : String → Option CoinInfo)
    (acquire : String → List PathSchema → List (List String) → Except Err Keychain)
    (func : Context → MsgWithCoinName → Keychain → CoinInfo →
      Option CoinJoinAuthorization → Except Err MsgOut)
    (ctx : Context) (msg : MsgWithCoinName)
    (authorization : Option CoinJoinAuthorization) :
    Except Err MsgOut × List Ev :=
  match authorization with
  | some auth =>
      match get_coin_by_name by_name msg.coin_name with
      | Except.error e => (Except.error e, [])
      | Except.ok coin =>
          (func ctx msg auth.keychain coin (some auth),
           [Ev.evHandler auth.keychain coin (some auth)])
  | none =>
      match get_keychain_for_coin by_name acquire msg.coin_name with
      | (Except.error e, events) => (Except.error e, events)
      | (Except.ok (keychain, coin), events) =>
          (func ctx msg keychain coin none,
           events ++ [Ev.evHandler keychain coin none, Ev.evRelease keychain])

/-! Concrete sample data used by witnesses and concrete scenarios. -/

/-- Modelled from the spec: the Bitcoin coin metadata (slip44 = 0,
segwit = true, fork_id = null) of the external registry. -/
def coinBitcoin : CoinInfo :=
  { coin_name := "Bitcoin", slip44 := 0, curve_name := "secp256k1",
    segwit := true, fork_id := none }

/-- Modelled from the spec: the Bitcoin Cash coin metadata (slip44 =
145, segwit = false, non-null fork_id) of the external registry. -/
def coinBcash : CoinInfo :=
  { coin_name := "Bcash", slip44 := 145, curve_name := "secp256k1",
    segwit := false, fork_id := some 145 }

/-- The concrete path 44 hardened / 0 hardened / 0 hardened / 0 / 0. -/
def path44h0 : List Nat := [2 ^ 31 + 44, 2 ^ 31, 2 ^ 31, 0, 0]

/-- The concrete path 49 hardened / 0 hardened / 0 hardened / 0 / 0. -/
def path49h0 : List Nat := [2 ^ 31 + 49, 2 ^ 31, 2 ^ 31, 0, 0]

/-- A sample registry with the two sample coins, used to instantiate
theorems quantified over the external registry. -/
def sampleRegistry : String → Option CoinInfo := fun name =>
  if name = "Bitcoin" then some coinBitcoin
  else if name = "Bcash" then some coinBcash
  else none

/-- A sample acquisition service that always hands out keychain 7. -/
def sampleAcquire : String → List PathSchema → List (List String) → Except Err Keychain :=
  fun _ _ _ => Except.ok ⟨7⟩

/-- A sample business handler returning the id of the keychain it was
given. -/
def sampleHandler :
    Context → MsgWithCoinName → Keychain → CoinInfo →
      Option CoinJoinAuthorization → Except Err Nat :=
  fun _ _ keychain _ _ => Except.ok keychain.id

/-- A sample business handler whose invocation is cancelled. -/
def sampleHandlerCancelled :
    Context → MsgWithCoinName → Keychain → CoinInfo →
      Option CoinJoinAuthorization → Except Err Nat :=
  fun _ _ _ _ _ => Except.error Err.actionCancelled

/-- A sample wire context. -/
def ctx0 : Context := ⟨0⟩

/-- A sample request naming the Bitcoin coin. -/
def msgBtcName : MsgWithCoinName := ⟨some "Bitcoin"⟩

/-! Claim theorems. -/

/-- C1: for every coin with segwit = false, and for every derivation
path and multisig flag, `validate_input_script_type` returns false when
the declared script type is SPENDP2SHWITNESS or SPENDWITNESS. -/
theorem nonsegwit_coin_rejects_witness_script_types
    (coin : CoinInfo) (msg : MsgWithAddressScriptType)
    (hseg : coin.segwit = false)
    (hst : msg.script_type = some InputScriptType.SPENDP2SHWITNESS
      ∨ msg.script_type = some InputScriptType.SPENDWITNESS) :
    validate_input_script_type coin msg = false := by
  rcases hst with h | h <;> simp [validate_input_script_type, h, hseg]

/-- Witness for C1 at the Bitcoin Cash metadata and a concrete request. -/
theorem nonsegwit_coin_rejects_witness_script_types_witness :
    coinBcash.segwit = false ∧
    validate_input_script_type coinBcash
      ⟨path49h0, some InputScriptType.SPENDWITNESS, false⟩ = false :=
  ⟨rfl,
   nonsegwit_coin_rejects_witness_script_types coinBcash
     ⟨path49h0, some InputScriptType.SPENDWITNESS, false⟩ rfl (Or.inr rfl)⟩

/-- C5: `validate_input_script_type` binds every selected template only
to the coin slip44 value and never to reference coin type 0: its result
is independent of the fork id, and a concrete path that the broad
schema set of a fork-id coin accepts (through the duplicate bound to
reference coin type 0) is rejected by this per-operation check. -/
theorem validator_ignores_fork_id :
    (∀ (coin : CoinInfo) (fid : Option Nat) (msg : MsgWithAddressScriptType),
       validate_input_script_type { coin with fork_id := fid } msg =
         validate_input_script_type coin msg)
    ∧ (get_schemas_for_coin coinBcash).any (fun s => s.matches path44h0) = true
    ∧ validate_input_script_type coinBcash
        ⟨path44h0, some InputScriptType.SPENDADDRESS, false⟩ = false :=
  ⟨fun _ _ _ => rfl, by decide, by decide⟩

/-- C6: for the Bitcoin metadata, the validator accepts the path
44h/0h/0h/0/0 with script type SPENDADDRESS and no multisig, and
rejects the path 49h/0h/0h/0/0 with script type SPENDWITNESS. -/
theorem bitcoin_concrete_scenarios :
    validate_input_script_type coinBitcoin
      ⟨path44h0, some InputScriptType.SPENDADDRESS, false⟩ = true
    ∧ validate_input_script_type coinBitcoin
        ⟨path49h0, some InputScriptType.SPENDWITNESS, false⟩ = false := by
  decide

/-- C9: for every coin metadata, the schema set built by
`get_schemas_for_coin` is non-empty and contains the canonical BIP-44
pattern bound to the coin slip44 value. -/
theorem get_schemas_contains_bip44 (coin : CoinInfo) :
    get_schemas_for_coin coin ≠ [] ∧
    PathSchema.mk PATTERN_BIP44 coin.slip44 ∈ get_schemas_for_coin coin := by
  constructor
  · simp [get_schemas_for_coin, schema_patterns]
  · exact List.mem_append_left _
      (List.mem_map_of_mem _ (by simp [schema_patterns]))

/-- C10: for every coin and derivation path, the validator returns
false when the declared script type is SPENDMULTISIG but the multisig
flag is false: that combination selects no templates. -/
theorem spendmultisig_without_multisig_rejected
    (coin : CoinInfo) (address_n : List Nat) :
    validate_input_script_type coin
      ⟨address_n, some InputScriptType.SPENDMULTISIG, false⟩ = false := by
  simp [validate_input_script_type]

/-- C3 counterexample: at the Bitcoin metadata the template list has
length 10 (three basic patterns, five compatibility patterns, two
segwit patterns), not the length 9 that exactly four compatibility
templates beyond the base and segwit templates would give: the code
appends five compatibility templates, the fifth being the Casa
pattern. -/
theorem compat_count_is_five_not_four :
    (schema_patterns coinBitcoin).length = 10 ∧
    ¬ (schema_patterns coinBitcoin).length = 9 := by
  decide

/-- C3 (amended): for every coin whose name is in `BITCOIN_NAMES`, the
builder appends exactly five additional compatibility templates (two
generic legacy patterns, two fixed-constant signing patterns and the
Casa pattern), each present in the schema set bound to the coin slip44
value; for every other coin it appends none. -/
theorem compat_patterns_for_bitcoin_names (coin : CoinInfo) :
    (coin.coin_name ∈ BITCOIN_NAMES →
       (schema_patterns coin).length = 3 + 5 + (if coin.segwit then 2 else 0)
       ∧ PathSchema.mk PATTERN_GREENADDRESS_A coin.slip44 ∈ get_schemas_for_coin coin
       ∧ PathSchema.mk PATTERN_GREENADDRESS_B coin.slip44 ∈ get_schemas_for_coin coin
       ∧ PathSchema.mk PATTERN_GREENADDRESS_SIGN_A coin.slip44 ∈ get_schemas_for_coin coin
       ∧ PathSchema.mk PATTERN_GREENADDRESS_SIGN_B coin.slip44 ∈ get_schemas_for_coin coin
       ∧ PathSchema.mk PATTERN_CASA coin.slip44 ∈ get_schemas_for_coin coin)
    ∧ (coin.coin_name ∉ BITCOIN_NAMES →
       (schema_patterns coin).length = 3 + (if coin.segwit then 2 else 0)) := by
  constructor
  · intro h
    refine ⟨?_, ?_, ?_, ?_, ?_, ?_⟩
    · cases hsw : coin.segwit <;> simp [schema_patterns, h, hsw]
    all_goals
      exact List.mem_append_left _
        (List.mem_map_of_mem _ (by simp [schema_patterns, h]))
  · intro h
    cases hsw : coin.segwit <;> simp [schema_patterns, h, hsw]

/-- Witness for the amended C3 at the Bitcoin and Bitcoin Cash
metadata. -/
theorem compat_patterns_for_bitcoin_names_witness :
    ((schema_patterns coinBitcoin).length
        = 3 + 5 + (if coinBitcoin.segwit then 2 else 0)
     ∧ PathSchema.mk PATTERN_CASA coinBitcoin.slip44
        ∈ get_schemas_for_coin coinBitcoin)
    ∧ (schema_patterns coinBcash).length
        = 3 + (if coinBcash.segwit then 2 else 0) :=
  ⟨⟨((compat_patterns_for_bitcoin_names coinBitcoin).1 (by decide)).1,
    ((compat_patterns_for_bitcoin_names coinBitcoin).1 (by decide)).2.2.2.2.2⟩,
   (compat_patterns_for_bitcoin_names coinBcash).2 (by decide)⟩

/-- C4: for every coin with a non-null fork id, the schema set contains
for every collected template both the variant bound to the coin slip44
value and the variant bound to reference coin type 0; for every coin
with a null fork id the schema set is exactly the slip44-bound
variants. -/
theorem get_schemas_fork_id_duplication (coin : CoinInfo) :
    (coin.fork_id ≠ none →
       ∀ pattern ∈ schema_patterns coin,
         PathSchema.mk pattern coin.slip44 ∈ get_schemas_for_coin coin
         ∧ PathSchema.mk pattern 0 ∈ get_schemas_for_coin coin)
    ∧ (coin.fork_id = none →
       get_schemas_for_coin coin =
         (schema_patterns coin).map fun pattern =>
           PathSchema.mk pattern coin.slip44) := by
  constructor
  · intro hf pattern hp
    constructor
    · exact List.mem_append_left _ (List.mem_map_of_mem _ hp)
    · refine List.mem_append_right _ ?_
      simp only [get_schemas_for_coin, if_pos hf]
      exact List.mem_map_of_mem _ hp
  · intro hf
    simp [get_schemas_for_coin, hf]

/-- Witness for C4 at the Bitcoin Cash (fork id present) and Bitcoin
(fork id absent) metadata. -/
theorem get_schemas_fork_id_duplication_witness :
    (PathSchema.mk PATTERN_BIP44 coinBcash.slip44 ∈ get_schemas_for_coin coinBcash
     ∧ PathSchema.mk PATTERN_BIP44 0 ∈ get_schemas_for_coin coinBcash)
    ∧ get_schemas_for_coin coinBitcoin =
        (schema_patterns coinBitcoin).map fun pattern =>
          PathSchema.mk pattern coinBitcoin.slip44 :=
  ⟨(get_schemas_fork_id_duplication coinBcash).1 (by decide)
     PATTERN_BIP44 (by decide),
   (get_schemas_fork_id_duplication coinBitcoin).2 rfl⟩

/-- C7: coin resolution maps a missing name to the lookup of "Bitcoin",
returns the registry metadata for every name the registry knows, and
fails with the unsupported-coin data error for every name it does not;
the embedding is a pure function, so it has no side effects. -/
theorem get_coin_by_name_contract (by_name : String → Option CoinInfo) :
    get_coin_by_name by_name none = get_coin_by_name by_name (some "Bitcoin")
    ∧ (∀ name coin, by_name name = some coin →
         get_coin_by_name by_name (some name) = Except.ok coin)
    ∧ (∀ name, by_name name = none →
         get_coin_by_name by_name (some name) =
           Except.error (Err.dataError "Unsupported coin type")) :=
  ⟨rfl,
   fun name coin h => by simp [get_coin_by_name, h],
   fun name h => by simp [get_coin_by_name, h]⟩

/-- Witness for C7 on the sample registry, with the known name
"Bitcoin" and the unknown name "Dogecoin2". -/
theorem get_coin_by_name_contract_witness :
    get_coin_by_name sampleRegistry (some "Bitcoin") = Except.ok coinBitcoin
    ∧ get_coin_by_name sampleRegistry (some "Dogecoin2") =
        Except.error (Err.dataError "Unsupported coin type") :=
  ⟨(get_coin_by_name_contract sampleRegistry).2.1 "Bitcoin" coinBitcoin (by decide),
   (get_coin_by_name_contract sampleRegistry).2.2 "Dogecoin2" (by decide)⟩

/-- C2: with a non-null authorization token, the composed handler never
constructs a schema set and never invokes the acquisition service, and
when coin resolution succeeds it returns the business handler invoked
with the token keychain, the resolved coin and the token itself, having
recorded only that handler invocation. -/
theorem with_keychain_authorization_bypass {MsgOut : Type}
    (by_name : String → Option CoinInfo)
    (acquire : String → List PathSchema → List (List String) → Except Err Keychain)
    (func : Context → MsgWithCoinName → Keychain → CoinInfo →
      Option CoinJoinAuthorization → Except Err MsgOut)
    (ctx : Context) (msg : MsgWithCoinName) (auth : CoinJoinAuthorization) :
    ((with_keychain by_name acquire func ctx msg (some auth)).2).all
        (fun ev => !ev.isGetSchemas && !ev.isAcquire) = true
    ∧ (∀ coin, get_coin_by_name by_name msg.coin_name = Except.ok coin →
         with_keychain by_name acquire func ctx msg (some auth) =
           (func ctx msg auth.keychain coin (some auth),
            [Ev.evHandler auth.keychain coin (some auth)])) := by
  constructor
  · cases h : get_coin_by_name by_name msg.coin_name with
    | error e => simp [with_keychain, h]
    | ok coin => simp [with_keychain, h, Ev.isGetSchemas, Ev.isAcquire]
  · intro coin h
    simp [with_keychain, h]

/-- Witness for C2: the bypass path on the sample collaborators, with
token keychain 5, invokes the handler with that keychain, the resolved
Bitcoin metadata and the token. -/
theorem with_keychain_authorization_bypass_witness :
    with_keychain sampleRegistry sampleAcquire sampleHandler ctx0 msgBtcName
        (some ⟨⟨5⟩⟩) =
      (sampleHandler ctx0 msgBtcName ⟨5⟩ coinBitcoin (some ⟨⟨5⟩⟩),
       [Ev.evHandler ⟨5⟩ coinBitcoin (some ⟨⟨5⟩⟩)]) :=
  (with_keychain_authorization_bypass sampleRegistry sampleAcquire sampleHandler
      ctx0 msgBtcName ⟨⟨5⟩⟩).2 coinBitcoin rfl

/-- C8: on the non-bypass path, whenever the business handler was
invoked the keychain it was given is released, whatever the handler
outcome (normal result, error or cancellation, all covered by the
arbitrary handler outcome); a coin-resolution failure propagates
unwrapped with no collaborator invoked; an acquisition failure
propagates unwrapped with the handler never invoked; and on successful
acquisition the recorded events end with the handler invocation
followed by the release of the acquired keychain. -/
theorem with_keychain_release_and_propagation {MsgOut : Type}
    (by_name : String → Option CoinInfo)
    (acquire : String → List PathSchema → List (List String) → Except Err Keychain)
    (func : Context → MsgWithCoinName → Keychain → CoinInfo →
      Option CoinJoinAuthorization → Except Err MsgOut)
    (ctx : Context) (msg : MsgWithCoinName) :
    (∀ keychain coin a,
       Ev.evHandler keychain coin a
           ∈ (with_keychain by_name acquire func ctx msg none).2 →
       Ev.evRelease keychain ∈ (with_keychain by_name acquire func ctx msg none).2)
    ∧ (∀ e, get_coin_by_name by_name msg.coin_name = Except.error e →
         with_keychain by_name acquire func ctx msg none = (Except.error e, []))
    ∧ (∀ coin e, get_coin_by_name by_name msg.coin_name = Except.ok coin →
         acquire coin.curve_name (get_schemas_for_coin coin) slip21_namespaces =
           Except.error e →
         (with_keychain by_name acquire func ctx msg none).1 = Except.error e
         ∧ ((with_keychain by_name acquire func ctx msg none).2).all
             (fun ev => !ev.isHandler) = true)
    ∧ (∀ coin keychain, get_coin_by_name by_name msg.coin_name = Except.ok coin →
         acquire coin.curve_name (get_schemas_for_coin coin) slip21_namespaces =
           Except.ok keychain →
         with_keychain by_name acquire func ctx msg none =
           (func ctx msg keychain coin none,
            [Ev.evGetSchemas coin,
             Ev.evAcquire coin.curve_name (get_schemas_for_coin coin)
               slip21_namespaces,
             Ev.evHandler keychain coin none, Ev.evRelease keychain])) := by
  refine ⟨?_, ?_, ?_, ?_⟩
  · intro keychain coin a hmem
    cases h : get_coin_by_name by_name msg.coin_name with
    | error e => simp [with_keychain, get_keychain_for_coin, h] at hmem
    | ok c =>
      cases ha : acquire c.curve_name (get_schemas_for_coin c) slip21_namespaces with
      | error e => simp [with_keychain, get_keychain_for_coin, h, ha] at hmem
      | ok kc =>
        simp [with_keychain, get_keychain_for_coin, h, ha] at hmem ⊢
        exact hmem.1
  · intro e h
    simp [with_keychain, get_keychain_for_coin, h]
  · intro coin e h ha
    simp [with_keychain, get_keychain_for_coin, h, ha, Ev.isHandler]
  · intro coin keychain h ha
    simp [with_keychain, get_keychain_for_coin, h, ha]

/-- Witness for C8: with the sample registry and acquisition service
and a cancelled handler, the cancellation propagates and the acquired
keychain 7 is still released after the handler invocation. -/
theorem with_keychain_release_and_propagation_witness :
    with_keychain sampleRegistry sampleAcquire sampleHandlerCancelled ctx0
        msgBtcName none =
      (Except.error Err.actionCancelled,
       [Ev.evGetSchemas coinBitcoin,
        Ev.evAcquire coinBitcoin.curve_name (get_schemas_for_coin coinBitcoin)
          slip21_namespaces,
        Ev.evHandler ⟨7⟩ coinBitcoin none, Ev.evRelease ⟨7⟩]) :=
  (with_keychain_release_and_propagation sampleRegistry sampleAcquire
      sampleHandlerCancelled ctx0 msgBtcName).2.2.2 coinBitcoin ⟨7⟩
    rfl rfl

end BitcoinKeychain
